import Mathlib

/-!
Verification development for the ESGBuddy compliance decision engine
(`backend/app/compliance_pipeline.py`, `backend/app/rule_validator.py`,
`backend/app/accuracy.py`, `backend/app/main.py`, `backend/app/models.py`).

Python floats are modelled by exact rationals (`ℚ`), Python `datetime` values
by opaque naturals, and the `parameters: Dict[str, Any]` maps by association
lists of a dynamic value type.  External collaborators (the vector store and
the reasoning/LLM service) are modelled as oracle functions carried in an
environment record, and the control flow of `evaluate_clause` records which
collaborators were actually invoked.
-/

set_option autoImplicit false

namespace ESGBuddy

/-- `ComplianceStatus` from `models.py` (the Python enum value `partial` is
named `partial_status` here because `partial` is a Lean keyword). -/
inductive ComplianceStatus where
  | supported
  | partial_status
  | not_supported
  | inferred
  deriving DecidableEq, Repr

/-- Scalar Python values that occur inside rule-parameter lists. -/
inductive PrimVal where
  | pnum (q : ℚ)
  | pstr (s : String)
  | pbool (b : Bool)
  deriving DecidableEq, Repr

/-- Dynamic Python values stored in a rule's `parameters: Dict[str, Any]`. -/
inductive AnyVal where
  | num (q : ℚ)
  | str (s : String)
  | boolV (b : Bool)
  | listV (xs : List PrimVal)
  deriving DecidableEq, Repr

/-- `ValidationRule` from `models.py`.  `rule_type` is kept as a plain string;
the dispatcher in the source handles unknown strings explicitly. -/
structure ValidationRule where
  rule_id : String
  rule_type : String
  description : String
  parameters : List (String × AnyVal)
  mandatory : Bool := false
  deriving DecidableEq, Repr

/-- `RuleValidationResult` from `models.py`. -/
structure RuleValidationResult where
  rule_id : String
  passed : Bool
  message : String
  triggered : Bool := true
  deriving DecidableEq, Repr

/-- `RetrievedEvidence` from `models.py`. -/
structure RetrievedEvidence where
  chunk_id : String
  text : String
  page_number : Int
  section_name : Option String := none
  similarity_score : ℚ
  document_id : String
  deriving DecidableEq, Repr

/-- `LLMEvaluation` from `models.py` (the agentic trace fields that no claim
inspects are kept as plain optional data). -/
structure LLMEvaluation where
  status : ComplianceStatus
  confidence : ℚ
  explanation : String
  reasoning : Option String := none
  reasoning_steps : Option (List String) := none
  reflection : Option String := none
  reflection_issues : Option (List String) := none
  revised : Bool := false
  deriving DecidableEq, Repr

/-- `ESGClause` from `models.py` (framework/evidence-type tags and embeddings
play no role in the evaluated code paths and are kept as strings/omitted). -/
structure ESGClause where
  clause_id : String
  framework : String
  section_name : Option String := none
  title : String
  description : String
  mandatory : Bool := true
  validation_rules : List ValidationRule := []
  keywords : List String := []
  deriving DecidableEq, Repr

/-- `ClauseEvaluation` from `models.py`; `timestamp` (a `datetime` default) is
an opaque natural supplied by the environment. -/
structure ClauseEvaluation where
  clause_id : String
  clause : ESGClause
  retrieved_evidence : List RetrievedEvidence
  llm_evaluation : Option LLMEvaluation := none
  rule_results : List RuleValidationResult := []
  final_status : ComplianceStatus
  final_confidence : ℚ
  override_applied : Bool := false
  override_reason : Option String := none
  timestamp : Nat := 0
  deriving DecidableEq, Repr

/-- `GroundTruthLabel` from `models.py`. -/
structure GroundTruthLabel where
  clause_id : String
  document_id : String
  expected_status : ComplianceStatus
  expected_evidence_pages : List Int
  notes : Option String := none
  deriving DecidableEq, Repr

/-- `AccuracyMetrics` from `models.py` (the `timestamp` default is omitted;
no claim observes it). -/
structure AccuracyMetrics where
  retrieval_recall_at_k : ℚ
  llm_precision : ℚ
  llm_recall : ℚ
  llm_f1_score : ℚ
  rule_validation_precision : ℚ
  confidence_calibration_error : ℚ
  total_clauses_evaluated : Nat
  deriving DecidableEq, Repr

/-! ## Python-level helpers: parameter lookup, truthiness, dynamic typing -/

/-- `params.get(key)` on the parameter dict (`None`, i.e. `none`, if absent). -/
def getParam (params : List (String × AnyVal)) (key : String) : Option AnyVal :=
  (params.find? (fun p => p.1 = key)).map (·.2)

/-- Python truthiness of a dynamic value (`if not keywords: ...`). -/
def truthy : AnyVal → Bool
  | .num q => decide (q ≠ 0)
  | .str s => decide (s ≠ "")
  | .boolV b => b
  | .listV xs => !xs.isEmpty

/-- Iterating a dynamic value and calling `.lower()` on each element, as the
comprehensions in `_validate_keyword` / `_validate_field_presence` do.
A string iterates into its characters; numbers and booleans are not iterable
(`TypeError`); non-string elements have no `.lower()` (`AttributeError`). -/
def iterStrings : AnyVal → Except String (List String)
  | .listV xs =>
      xs.mapM fun v =>
        match v with
        | .pstr s => .ok s
        | _ => .error "AttributeError: object has no attribute lower"
  | .str s => .ok (s.data.map fun c => String.mk [c])
  | .num _ => .error "TypeError: object is not iterable"
  | .boolV _ => .error "TypeError: object is not iterable"

/-- Python `value <= q` where `value` came from the parameter dict.
Booleans compare as 0/1; strings and lists raise `TypeError`. -/
def pyValLe (v : AnyVal) (q : ℚ) : Except String Bool :=
  match v with
  | .num a => .ok (decide (a ≤ q))
  | .boolV b => .ok (decide ((if b then (1 : ℚ) else 0) ≤ q))
  | .str _ => .error "TypeError: unorderable types in comparison"
  | .listV _ => .error "TypeError: unorderable types in comparison"

/-- Python `q <= value`, symmetric to `pyValLe`. -/
def pyLeVal (q : ℚ) (v : AnyVal) : Except String Bool :=
  match v with
  | .num a => .ok (decide (q ≤ a))
  | .boolV b => .ok (decide (q ≤ (if b then (1 : ℚ) else 0)))
  | .str _ => .error "TypeError: unorderable types in comparison"
  | .listV _ => .error "TypeError: unorderable types in comparison"

/-- The chained comparison `lo <= v <= hi` with Python's short-circuit:
the upper bound is only evaluated when the lower one held. -/
def chainedLe (lo : AnyVal) (v : ℚ) (hi : AnyVal) : Except String Bool :=
  match pyValLe lo v with
  | .error e => .error e
  | .ok false => .ok false
  | .ok true => pyLeVal v hi

/-! ## String scanning (the `re` patterns used by the rule validator) -/

/-- Regex word character (`\w`): alphanumeric or underscore. -/
def isWordChar (c : Char) : Bool :=
  c.isAlphanum || c = '_'

/-- Whether a word boundary `\b` sits between two adjacent positions
(out-of-range counts as non-word). -/
def wordBoundary (a b : Option Char) : Bool :=
  (match a with | some c => isWordChar c | none => false)
    != (match b with | some c => isWordChar c | none => false)

/-- Python `str.lower()` (ASCII case folding suffices for this corpus). -/
def pyLower (s : String) : String :=
  String.mk (s.data.map Char.toLower)

/-- Whether `needle` occurs as a contiguous sublist of `hay`. -/
def listInfixOf (needle : List Char) : List Char → Bool
  | [] => needle.isEmpty
  | c :: rest => needle.isPrefixOf (c :: rest) || listInfixOf needle rest

/-- Python `needle in hay` substring membership. -/
def substrOf (needle hay : String) : Bool :=
  listInfixOf needle.data hay.data

/-- Generic left-to-right non-overlapping regex scan (`re.findall`):
`pAt prev cs` gives the length of a match at the current position, `ext`
extracts the string `findall` yields for a match (the whole match, or the
text of a capture group).  `fuel` bounds the scan by the text length. -/
def scanRegex (pAt : Option Char → List Char → Option Nat)
    (ext : List Char → Nat → String) :
    Nat → Option Char → List Char → List String
  | 0, _, _ => []
  | _ + 1, _, [] => []
  | fuel + 1, prev, c :: rest =>
    match pAt prev (c :: rest) with
    | some n =>
        ext (c :: rest) n ::
          scanRegex pAt ext fuel (((c :: rest).take n).getLast?) ((c :: rest).drop n)
    | none => scanRegex pAt ext fuel (some c) rest

/-- A match of `\b(19|20)\d{2}\b` at the current position (length 4). -/
def yearAt (prev : Option Char) (cs : List Char) : Option Nat :=
  if wordBoundary prev cs.head? then
    match cs with
    | c1 :: c2 :: c3 :: c4 :: rest =>
      if ((c1 = '1' && c2 = '9') || (c1 = '2' && c2 = '0')) && c3.isDigit && c4.isDigit &&
          (match rest.head? with | some c => !isWordChar c | none => true) then
        some 4
      else none
    | _ => none
  else none

/-- `re.findall(r'\b(19|20)\d{2}\b', text)`.  The pattern has a capture
group, so `findall` returns the *group* text (`"19"` or `"20"`), not the full
four-digit match. -/
def findYearGroups (text : String) : List String :=
  scanRegex yearAt (fun cs _ => String.mk (cs.take 2)) text.length none text.data

/-- Decimal digits to a natural number (`int(...)` on a digit string). -/
def digitsToNat (ds : List Char) : Nat :=
  ds.foldl (fun a c => 10 * a + (c.toNat - 48)) 0

/-- Python `int(s)` for a digit string, as a rational. -/
def pyInt (s : String) : ℚ :=
  (digitsToNat s.data : ℚ)

/-- Leading-digit span of a character list. -/
def digitSpan (cs : List Char) : List Char × List Char :=
  (cs.takeWhile Char.isDigit, cs.dropWhile Char.isDigit)

/-- Match of the mantissa `[0-9]*\.?[0-9]+` at the head of `cs`, returning the
matched characters and the rest.  Mirrors the regex backtracking: a trailing
dot with no digits after it is not consumed. -/
def mantissaAt (cs : List Char) : Option (List Char × List Char) :=
  let (ds1, r1) := digitSpan cs
  match r1 with
  | '.' :: r2 =>
    let (ds2, r3) := digitSpan r2
    if ds2 ≠ [] then some (ds1 ++ '.' :: ds2, r3)
    else if ds1 ≠ [] then some (ds1, r1)
    else none
  | _ => if ds1 ≠ [] then some (ds1, r1) else none

/-- Match of `[-+]?[0-9]*\.?[0-9]+(?:[eE][-+]?[0-9]+)?` at the current
position, returning the matched characters and the rest. -/
def numberAt (cs : List Char) : Option (List Char × List Char) :=
  let core :=
    match cs with
    | c :: rest =>
      if c = '-' ∨ c = '+' then
        match mantissaAt rest with
        | some (m, r) => some (c :: m, r)
        | none => none
      else mantissaAt cs
    | [] => none
  match core with
  | none => none
  | some (m, r) =>
    match r with
    | e :: r1 =>
      if e = 'e' ∨ e = 'E' then
        let (sgn, r2) :=
          match r1 with
          | c :: r2' => if c = '-' ∨ c = '+' then ([c], r2') else (([] : List Char), r1)
          | [] => ([], r1)
        let (ds, r3) := digitSpan r2
        if ds ≠ [] then some (m ++ e :: (sgn ++ ds), r3) else some (m, r)
      else some (m, r)
    | [] => some (m, r)

/-- The scan loop of `re.findall` for the numeric pattern. -/
def numScan : Nat → List Char → List String
  | 0, _ => []
  | _ + 1, [] => []
  | fuel + 1, c :: rest =>
    match numberAt (c :: rest) with
    | some (m, r) => String.mk m :: numScan fuel r
    | none => numScan fuel rest

/-- `re.findall` of the numeric-literal pattern over the whole text. -/
def findNumberLiterals (text : String) : List String :=
  numScan text.length text.data

/-- Python `float(s)` for a string matched by the numeric pattern. -/
def pyFloat (s : String) : ℚ :=
  let cs := s.data
  let (sign, cs) :=
    match cs with
    | c :: rest => if c = '-' then ((-1 : ℚ), rest) else if c = '+' then ((1 : ℚ), rest) else (1, cs)
    | [] => (1, cs)
  let (ds1, cs) := digitSpan cs
  let (frac, cs) :=
    match cs with
    | '.' :: r => digitSpan r
    | _ => ([], cs)
  let mant : ℚ := (digitsToNat ds1 : ℚ) + (digitsToNat frac : ℚ) / (10 : ℚ) ^ frac.length
  let scaled : ℚ :=
    match cs with
    | e :: r =>
      if e = 'e' ∨ e = 'E' then
        match r with
        | '-' :: r2 => mant / (10 : ℚ) ^ digitsToNat (digitSpan r2).1
        | '+' :: r2 => mant * (10 : ℚ) ^ digitsToNat (digitSpan r2).1
        | _ => mant * (10 : ℚ) ^ digitsToNat (digitSpan r).1
      else mant
    | [] => mant
  sign * scaled

/-! ## Rendering helpers for the human-readable result messages -/

/-- Python-style list display of already rendered items. -/
def listDisplay (items : List String) : String :=
  "[" ++ String.intercalate ", " items ++ "]"

/-- Display of a rational standing in for a Python float. -/
def ratStr (q : ℚ) : String :=
  toString q

/-- Display of a dynamic parameter value inside a message. -/
def anyValStr : AnyVal → String
  | .num q => ratStr q
  | .str s => s
  | .boolV b => if b then "True" else "False"
  | .listV xs =>
      listDisplay (xs.map fun v =>
        match v with
        | .pnum q => ratStr q
        | .pstr s => s
        | .pbool b => if b then "True" else "False")

/-- Display of an optional numeric bound (`float('-inf')`/`float('inf')`
when the parameter is absent). -/
def boundStr (v : Option AnyVal) (infRepr : String) : String :=
  match v with
  | some a => anyValStr a
  | none => infRepr

/-! ## `rule_validator.py`: the per-type validators -/

/-- The monadic filter implicit in the `for num_str in numbers` loop of
`_validate_numeric`: collect the values satisfying the chained comparison,
aborting on the first `TypeError`. -/
def filterNumbers (minV maxV : Option AnyVal) : List ℚ → Except String (List ℚ)
  | [] => .ok []
  | q :: rest =>
    let check : Except String Bool :=
      match minV with
      | none => (match maxV with | none => .ok true | some v => pyLeVal q v)
      | some v =>
        match pyValLe v q with
        | .error e => .error e
        | .ok false => .ok false
        | .ok true => (match maxV with | none => .ok true | some v2 => pyLeVal q v2)
    match check with
    | .error e => .error e
    | .ok b =>
      match filterNumbers minV maxV rest with
      | .error e => .error e
      | .ok vs => .ok (if b then q :: vs else vs)

/-- `RuleValidator._validate_numeric`. -/
def validate_numeric (rule : ValidationRule) (text : String) :
    Except String RuleValidationResult :=
  let numbers := findNumberLiterals text
  if numbers.isEmpty then
    .ok { rule_id := rule.rule_id, passed := false,
          message := "No numeric values found in evidence", triggered := true }
  else
    let min_value := getParam rule.parameters "min_value"
    let max_value := getParam rule.parameters "max_value"
    match filterNumbers min_value max_value (numbers.map pyFloat) with
    | .error e => .error e
    | .ok valid_numbers =>
      if !valid_numbers.isEmpty then
        .ok { rule_id := rule.rule_id, passed := true,
              message := "Found valid numeric values: " ++
                listDisplay ((valid_numbers.take 3).map ratStr),
              triggered := true }
      else
        .ok { rule_id := rule.rule_id, passed := false,
              message := "No numeric values within range [" ++
                boundStr min_value "-inf" ++ ", " ++ boundStr max_value "inf" ++ "]",
              triggered := true }

/-- The year filter loop of `_validate_temporal`
(`[y for y in years if min_year <= int(y) <= max_year]`), aborting on a
`TypeError` from a non-numeric bound. -/
def filterYears (minY maxY : AnyVal) : List String → Except String (List String)
  | [] => .ok []
  | y :: rest =>
    match chainedLe minY (pyInt y) maxY with
    | .error e => .error e
    | .ok b =>
      match filterYears minY maxY rest with
      | .error e => .error e
      | .ok vs => .ok (if b then y :: vs else vs)

/-- Matcher for `\d{lo,hi}` followed (greedily, with backtracking) by the
continuation `k`; returns the total consumed length. -/
def digitsThen (lo hi : Nat) (cs : List Char) (k : List Char → Option Nat) : Option Nat :=
  ((List.range (hi + 1 - lo)).map (fun j => hi - j)).findSome? fun n =>
    let pre := cs.take n
    if pre.length = n && pre.all Char.isDigit then (k (cs.drop n)).map (n + ·) else none

/-- Matcher for a literal separator character followed by `k`. -/
def sepThen (sep : Char) (cs : List Char) (k : List Char → Option Nat) : Option Nat :=
  match cs with
  | c :: rest => if c = sep then (k rest).map (· + 1) else none
  | [] => none

/-- Trailing `\b` after a digit: the next character must not be a word
character (or the text must end). -/
def boundaryAfterDigit (cs : List Char) : Option Nat :=
  match cs.head? with
  | some c => if isWordChar c then none else some 0
  | none => some 0

/-- Match of `\b\d{1,2}SEP\d{1,2}SEP\d{2,4}\b` at the current position. -/
def dateSlashAt (sep : Char) (prev : Option Char) (cs : List Char) : Option Nat :=
  if wordBoundary prev cs.head? then
    digitsThen 1 2 cs fun c1 => sepThen sep c1 fun c2 =>
      digitsThen 1 2 c2 fun c3 => sepThen sep c3 fun c4 =>
        digitsThen 2 4 c4 boundaryAfterDigit
  else none

/-- Match of `\b\d{4}-\d{1,2}-\d{1,2}\b` at the current position. -/
def dateIsoAt (prev : Option Char) (cs : List Char) : Option Nat :=
  if wordBoundary prev cs.head? then
    digitsThen 4 4 cs fun c1 => sepThen '-' c1 fun c2 =>
      digitsThen 1 2 c2 fun c3 => sepThen '-' c3 fun c4 =>
        digitsThen 1 2 c4 boundaryAfterDigit
  else none

/-- `re.findall` of one date pattern over the whole text (full matches). -/
def findDates (pAt : Option Char → List Char → Option Nat) (text : String) : List String :=
  scanRegex pAt (fun cs n => String.mk (cs.take n)) text.length none text.data

/-- The fixed period keywords of the general-period branch. -/
def periodKeywords : List String :=
  ["period", "fiscal year", "quarter", "reporting period"]

/-- `RuleValidator._validate_temporal`.  `currentYear` stands for
`datetime.now().year`. -/
def validate_temporal (currentYear : ℚ) (rule : ValidationRule) (text : String) :
    Except String RuleValidationResult :=
  let format_type := (getParam rule.parameters "format").getD (.str "year")
  if format_type = .str "year" then
    let years := findYearGroups text
    if years.isEmpty then
      .ok { rule_id := rule.rule_id, passed := false,
            message := "No year references found in evidence", triggered := true }
    else
      let min_year := (getParam rule.parameters "min_year").getD (.num 1900)
      let max_year := (getParam rule.parameters "max_year").getD (.num currentYear)
      match filterYears min_year max_year years with
      | .error e => .error e
      | .ok valid_years =>
        if !valid_years.isEmpty then
          .ok { rule_id := rule.rule_id, passed := true,
                message := "Found valid years: " ++ listDisplay (valid_years.take 5),
                triggered := true }
        else
          .ok { rule_id := rule.rule_id, passed := false,
                message := "No years within valid range [" ++ anyValStr min_year ++
                  ", " ++ anyValStr max_year ++ "]",
                triggered := true }
  else if format_type = .str "date" then
    let dates_found :=
      findDates (dateSlashAt '/') text ++ findDates (dateSlashAt '-') text ++
        findDates dateIsoAt text
    if !dates_found.isEmpty then
      .ok { rule_id := rule.rule_id, passed := true,
            message := "Found dates: " ++ listDisplay (dates_found.take 3),
            triggered := true }
    else
      .ok { rule_id := rule.rule_id, passed := false,
            message := "No date references found", triggered := true }
  else
    if periodKeywords.any (fun kw => substrOf kw (pyLower text)) then
      .ok { rule_id := rule.rule_id, passed := true,
            message := "Time period reference found", triggered := true }
    else
      .ok { rule_id := rule.rule_id, passed := false,
            message := "No time period reference found", triggered := true }

/-- `RuleValidator._validate_keyword`. -/
def validate_keyword (rule : ValidationRule) (text : String) :
    Except String RuleValidationResult :=
  let keywords := (getParam rule.parameters "keywords").getD (.listV [])
  let match_all := (getParam rule.parameters "match_all").getD (.boolV false)
  if !truthy keywords then
    .ok { rule_id := rule.rule_id, passed := false,
          message := "No keywords specified in rule", triggered := false }
  else
    match iterStrings keywords with
    | .error e => .error e
    | .ok kws =>
      let text_lower := pyLower text
      let found_keywords := kws.filter fun kw => substrOf (pyLower kw) text_lower
      if truthy match_all then
        .ok { rule_id := rule.rule_id,
              passed := decide (found_keywords.length = kws.length),
              message := "Found " ++ toString found_keywords.length ++ "/" ++
                toString kws.length ++ " required keywords",
              triggered := true }
      else
        .ok { rule_id := rule.rule_id, passed := !found_keywords.isEmpty,
              message :=
                if !found_keywords.isEmpty then
                  "Found keywords: " ++ listDisplay (found_keywords.take 5)
                else "No matching keywords found",
              triggered := true }

/-- Search (`re.search`) for `\bFIELD\s*[:=]` starting at the current
position: word boundary, the literal lower-cased field, optional whitespace,
then a colon or equals sign. -/
def fieldHereOk (prev : Option Char) (cs : List Char) (fld : List Char) : Bool :=
  wordBoundary prev cs.head? && fld.isPrefixOf cs &&
    (match ((cs.drop fld.length).dropWhile Char.isWhitespace).head? with
     | some ':' => true
     | some '=' => true
     | _ => false)

/-- `re.search` of the field pattern over the whole (lower-cased) text. -/
def searchField (fld : List Char) : Option Char → List Char → Bool
  | prev, [] => fieldHereOk prev [] fld
  | prev, c :: rest => fieldHereOk prev (c :: rest) fld || searchField fld (some c) rest

/-- `RuleValidator._validate_field_presence`. -/
def validate_field_presence (rule : ValidationRule) (text : String) :
    Except String RuleValidationResult :=
  let fields := (getParam rule.parameters "fields").getD (.listV [])
  if !truthy fields then
    .ok { rule_id := rule.rule_id, passed := false,
          message := "No fields specified in rule", triggered := false }
  else
    match iterStrings fields with
    | .error e => .error e
    | .ok flds =>
      let text_lower := pyLower text
      let found_fields := flds.filter fun f => searchField (pyLower f).data none text_lower.data
      let passed := decide (found_fields.length = flds.length)
      .ok { rule_id := rule.rule_id, passed := passed,
            message :=
              if passed then "All required fields present: " ++ listDisplay found_fields
              else "Missing required fields: " ++
                listDisplay (flds.filter fun f => !found_fields.contains f),
            triggered := true }

/-- `RuleValidator._validate_single_rule`: dispatch on the rule type. -/
def validate_single_rule (currentYear : ℚ) (rule : ValidationRule) (combined_text : String) :
    Except String RuleValidationResult :=
  if rule.rule_type = "numeric" then validate_numeric rule combined_text
  else if rule.rule_type = "temporal" then validate_temporal currentYear rule combined_text
  else if rule.rule_type = "keyword" then validate_keyword rule combined_text
  else if rule.rule_type = "field_presence" then validate_field_presence rule combined_text
  else
    .ok { rule_id := rule.rule_id, passed := false,
          message := "Unknown rule type: " ++ rule.rule_type, triggered := false }

/-- The per-rule `try/except` of `RuleValidator.validate_rules`: an internal
error becomes an untriggered, failed result carrying the error text. -/
def handleRule (currentYear : ℚ) (rule : ValidationRule) (combined_text : String) :
    RuleValidationResult :=
  match validate_single_rule currentYear rule combined_text with
  | .ok r => r
  | .error e =>
      { rule_id := rule.rule_id, passed := false,
        message := "Rule validation error: " ++ e, triggered := false }

/-- `RuleValidator.validate_rules`:  all evidence texts are joined into one
corpus, then each rule is validated independently. -/
def validate_rules (currentYear : ℚ) (rules : List ValidationRule)
    (evidence : List RetrievedEvidence) : List RuleValidationResult :=
  let combined_evidence := String.intercalate " " (evidence.map (·.text))
  rules.map fun rule => handleRule currentYear rule combined_evidence

/-! ## `compliance_pipeline.py`: decision fusion and the clause pipeline -/

/-- Python's builtin `min` on two floats (computable on `ℚ`; agrees with
`min` by `min_def`). -/
def pyMin (a b : ℚ) : ℚ := if a ≤ b then a else b

/-- Python's builtin `max` on two floats (computable on `ℚ`; agrees with
`max` by `max_def`). -/
def pyMax (a b : ℚ) : ℚ := if a ≤ b then b else a

theorem pyMin_eq (a b : ℚ) : pyMin a b = min a b := (min_def a b).symm

theorem pyMax_eq (a b : ℚ) : pyMax a b = max a b := (max_def a b).symm

/-- The `failed_mandatory_rules` comprehension of `_make_final_decision`:
triggered, non-passed results whose rule id matches a mandatory clause rule. -/
def failedMandatoryRules (rule_results : List RuleValidationResult)
    (clause : ESGClause) : List RuleValidationResult :=
  rule_results.filter fun r =>
    r.triggered && !r.passed &&
      ((clause.validation_rules.filter fun vr => vr.rule_id == r.rule_id).any (·.mandatory))

/-- `CompliancePipeline._make_final_decision`: combine the LLM verdict with
the rule results.  Returns `(final_status, final_confidence,
override_applied, override_reason)`; each variable mirrors one of the
Python reassignments. -/
def make_final_decision (llm_eval : LLMEvaluation)
    (rule_results : List RuleValidationResult) (clause : ESGClause) :
    ComplianceStatus × ℚ × Bool × Option String :=
  let failed_mandatory_rules := failedMandatoryRules rule_results clause
  let mandatory_override :=
    !failed_mandatory_rules.isEmpty &&
      (llm_eval.status == ComplianceStatus.supported ||
        llm_eval.status == ComplianceStatus.partial_status)
  let final_status :=
    if mandatory_override then ComplianceStatus.partial_status else llm_eval.status
  let override_applied := mandatory_override
  let override_reason : Option String :=
    if mandatory_override then
      some ("Mandatory rule(s) failed: " ++
        String.intercalate ", " (failed_mandatory_rules.map (·.rule_id)))
    else none
  let confidence0 :=
    if mandatory_override then pyMin llm_eval.confidence (1/2) else llm_eval.confidence
  let all_rules_passed := (rule_results.filter (·.triggered)).all (·.passed)
  let confidence1 :=
    if all_rules_passed && !rule_results.isEmpty &&
        llm_eval.status == ComplianceStatus.not_supported then
      pyMax (3/10) (confidence0 - 2/10)
    else confidence0
  let rule_pass_rate := (rule_results.countP (·.passed) : ℚ) / (rule_results.length : ℚ)
  let final_confidence :=
    if !rule_results.isEmpty then (confidence1 + rule_pass_rate) / 2 else confidence1
  (final_status, final_confidence, override_applied, override_reason)

/-- External collaborators and ambient configuration of the clause pipeline:
the vector store (`search_documents`), the agentic LLM evaluation
(`_evaluate_with_llm`, treated as one oracle), `settings.top_k_chunks`,
`datetime.now().year`, and the creation timestamp. -/
structure PipelineEnv where
  search : String → String → Nat → List RetrievedEvidence
  llm_evaluate : ESGClause → List RetrievedEvidence → LLMEvaluation
  top_k_chunks : Nat
  current_year : ℚ
  now : Nat

/-- Which collaborators `evaluate_clause` actually invoked. -/
structure CallTrace where
  llm_called : Bool
  rules_called : Bool
  deriving DecidableEq, Repr

/-- `CompliancePipeline._construct_search_query`. -/
def construct_search_query (clause : ESGClause) : String :=
  let query_parts := [clause.title, clause.description]
  let query_parts :=
    if ¬ clause.keywords.isEmpty then
      query_parts ++ [String.intercalate " " (clause.keywords.take 5)]
    else query_parts
  String.intercalate " " query_parts

/-- `top_k = top_k or settings.top_k_chunks` (Python `or`: `None` and `0`
both fall back to the configured default). -/
def resolveTopK (env : PipelineEnv) (top_k : Option Nat) : Nat :=
  match top_k with
  | some k => if k = 0 then env.top_k_chunks else k
  | none => env.top_k_chunks

/-- `CompliancePipeline.evaluate_clause`, instrumented with a `CallTrace`
recording whether the LLM and the rule validator were invoked. -/
def evaluate_clause (env : PipelineEnv) (document_id : String) (clause : ESGClause)
    (top_k : Option Nat) : ClauseEvaluation × CallTrace :=
  let query := construct_search_query clause
  let retrieved_evidence := env.search query document_id (resolveTopK env top_k)
  if retrieved_evidence.isEmpty then
    ({ clause_id := clause.clause_id, clause := clause, retrieved_evidence := [],
       llm_evaluation := none, rule_results := [],
       final_status := ComplianceStatus.not_supported, final_confidence := 0,
       override_applied := false, override_reason := none, timestamp := env.now },
     { llm_called := false, rules_called := false })
  else
    let llm_evaluation := env.llm_evaluate clause retrieved_evidence
    let rule_results := validate_rules env.current_year clause.validation_rules retrieved_evidence
    let d := make_final_decision llm_evaluation rule_results clause
    ({ clause_id := clause.clause_id, clause := clause,
       retrieved_evidence := retrieved_evidence,
       llm_evaluation := some llm_evaluation, rule_results := rule_results,
       final_status := d.1, final_confidence := d.2.1,
       override_applied := d.2.2.1, override_reason := d.2.2.2, timestamp := env.now },
     { llm_called := true, rules_called := true })

/-! ## `accuracy.py`: the accuracy evaluator -/

/-- The ground-truth dictionary, modelled as a lookup function over the
string keys the Python code uses. -/
def GroundTruthStore : Type := String → Option GroundTruthLabel

/-- The key `f"{document_id}_{clause_id}"` used by the store. -/
def gtKey (document_id clause_id : String) : String :=
  document_id ++ "_" ++ clause_id

/-- `AccuracyEvaluator.add_ground_truth`: upsert each label under its
concatenated key. -/
def add_ground_truth (store : GroundTruthStore) (labels : List GroundTruthLabel) :
    GroundTruthStore :=
  labels.foldl
    (fun st label k =>
      if k = gtKey label.document_id label.clause_id then some label else st k)
    store

/-- `AccuracyEvaluator._calculate_retrieval_recall`. -/
def calculate_retrieval_recall
    (eval_with_truth : List (ClauseEvaluation × GroundTruthLabel)) : ℚ :=
  let correct_retrievals := eval_with_truth.countP fun p =>
    (p.1.retrieved_evidence.map (·.page_number)).any
      (fun pg => p.2.expected_evidence_pages.contains pg)
  if eval_with_truth.isEmpty then 0
  else (correct_retrievals : ℚ) / (eval_with_truth.length : ℚ)

/-- Binary "compliant" notion used by the confusion matrix. -/
def isCompliantStatus (s : ComplianceStatus) : Bool :=
  s == ComplianceStatus.supported || s == ComplianceStatus.inferred

/-- `AccuracyEvaluator._calculate_llm_metrics`: `(precision, recall, f1)`. -/
def calculate_llm_metrics
    (eval_with_truth : List (ClauseEvaluation × GroundTruthLabel)) : ℚ × ℚ × ℚ :=
  let tp := eval_with_truth.countP fun p =>
    isCompliantStatus p.1.final_status && isCompliantStatus p.2.expected_status
  let fp := eval_with_truth.countP fun p =>
    isCompliantStatus p.1.final_status && !isCompliantStatus p.2.expected_status
  let fneg := eval_with_truth.countP fun p =>
    !isCompliantStatus p.1.final_status && isCompliantStatus p.2.expected_status
  let precision := if 0 < tp + fp then (tp : ℚ) / ((tp : ℚ) + (fp : ℚ)) else 0
  let recallScore := if 0 < tp + fneg then (tp : ℚ) / ((tp : ℚ) + (fneg : ℚ)) else 0
  let f1 :=
    if 0 < precision + recallScore then
      2 * (precision * recallScore) / (precision + recallScore)
    else 0
  (precision, recallScore, f1)

/-- `AccuracyEvaluator._calculate_rule_precision`. -/
def calculate_rule_precision
    (eval_with_truth : List (ClauseEvaluation × GroundTruthLabel)) : ℚ :=
  let rule_overrides := eval_with_truth.filter fun p => p.1.override_applied
  if rule_overrides.isEmpty then 1
  else
    ((rule_overrides.countP fun p =>
        p.1.final_status == p.2.expected_status : Nat) : ℚ) /
      (rule_overrides.length : ℚ)

/-- The bin edges `[0.0, 0.2, 0.4, 0.6, 0.8, 1.0]`. -/
def calibBins : List ℚ := [0, 1/5, 2/5, 3/5, 4/5, 1]

/-- The bin-search loop of `_calculate_confidence_calibration`: the first
`i < 5` with `bins[i] <= confidence < bins[i+1]` (no bin otherwise). -/
def binIndexOf (confidence : ℚ) : Option Nat :=
  (List.range 5).find? fun i =>
    decide (calibBins.getD i 0 ≤ confidence) && decide (confidence < calibBins.getD (i + 1) 0)

/-- The correctness booleans collected in `bin_data[i]`, in input order. -/
def binData (eval_with_truth : List (ClauseEvaluation × GroundTruthLabel)) (i : Nat) :
    List Bool :=
  (eval_with_truth.filter fun p => decide (binIndexOf p.1.final_confidence = some i)).map
    fun p => p.1.final_status == p.2.expected_status

/-- `AccuracyEvaluator._calculate_confidence_calibration`. -/
def calculate_confidence_calibration
    (eval_with_truth : List (ClauseEvaluation × GroundTruthLabel)) : ℚ :=
  let contribution : Nat → ℚ := fun i =>
    let correct_list := binData eval_with_truth i
    if correct_list.isEmpty then 0
    else
      let avg_confidence := (calibBins.getD i 0 + calibBins.getD (i + 1) 0) / 2
      let accuracy := (correct_list.countP (· == true) : ℚ) / (correct_list.length : ℚ)
      |avg_confidence - accuracy| * (correct_list.length : ℚ)
  let total_samples := ((List.range 5).map fun i => (binData eval_with_truth i).length).sum
  let calibration_error := ((List.range 5).map contribution).sum
  if 0 < total_samples then calibration_error / (total_samples : ℚ)
  else calibration_error

/-- `AccuracyEvaluator._create_zero_metrics`. -/
def create_zero_metrics (total_clauses : Nat) : AccuracyMetrics :=
  { retrieval_recall_at_k := 0, llm_precision := 0, llm_recall := 0,
    llm_f1_score := 0, rule_validation_precision := 0,
    confidence_calibration_error := 1, total_clauses_evaluated := total_clauses }

/-- `AccuracyEvaluator.evaluate_accuracy`. -/
def evaluate_accuracy (store : GroundTruthStore)
    (evaluations : List ClauseEvaluation) (document_id : String) : AccuracyMetrics :=
  let eval_with_truth := evaluations.filterMap fun e =>
    (store (gtKey document_id e.clause_id)).map fun label => (e, label)
  if eval_with_truth.isEmpty then create_zero_metrics evaluations.length
  else
    let m := calculate_llm_metrics eval_with_truth
    { retrieval_recall_at_k := calculate_retrieval_recall eval_with_truth,
      llm_precision := m.1, llm_recall := m.2.1, llm_f1_score := m.2.2,
      rule_validation_precision := calculate_rule_precision eval_with_truth,
      confidence_calibration_error := calculate_confidence_calibration eval_with_truth,
      total_clauses_evaluated := eval_with_truth.length }

/-! ## `main.py`: the manual-override endpoint -/

/-- `ComplianceReport` from `models.py`, restricted to the fields the
override endpoint reads or writes. -/
structure ComplianceReport where
  report_id : String
  document_id : String
  evaluations : List ClauseEvaluation
  deriving DecidableEq, Repr

/-- `ComplianceOverrideRequest` from `models.py`. -/
structure ComplianceOverrideRequest where
  report_id : String
  clause_id : String
  new_status : ComplianceStatus
  reason : String
  deriving DecidableEq, Repr

/-- `HTTPException(status_code=404, detail=...)`. -/
structure HTTPError where
  status_code : Nat
  detail : String
  deriving DecidableEq, Repr

/-- The JSON body returned by a successful override. -/
structure OverrideResponse where
  message : String
  clause_id : String
  old_status : ComplianceStatus
  new_status : ComplianceStatus
  deriving DecidableEq, Repr

/-- In-place mutation of the evaluation object found by `next(...)`: only the
first list element satisfying `p` is replaced. -/
def updateFirst {α : Type} (p : α → Bool) (f : α → α) : List α → List α
  | [] => []
  | x :: xs => if p x then f x :: xs else x :: updateFirst p f xs

/-- The three field assignments the endpoint performs on the evaluation. -/
def applyOverride (e : ClauseEvaluation) (req : ComplianceOverrideRequest) :
    ClauseEvaluation :=
  { e with final_status := req.new_status, override_applied := true,
           override_reason := some ("Manual override: " ++ req.reason) }

/-- `override_clause_evaluation` from `main.py`: look up the report, find the
evaluation by clause id, mutate it in place, and return the response.  The
returned report is the post-mutation state of the stored report. -/
def override_clause_evaluation (compliance_reports : String → Option ComplianceReport)
    (req : ComplianceOverrideRequest) :
    Except HTTPError (ComplianceReport × OverrideResponse) :=
  match compliance_reports req.report_id with
  | none => .error { status_code := 404, detail := "Report not found" }
  | some report =>
    match report.evaluations.find? (fun e => e.clause_id == req.clause_id) with
    | none => .error { status_code := 404, detail := "Clause evaluation not found" }
    | some evaluation =>
      let old_status := evaluation.final_status
      let report' :=
        { report with
            evaluations :=
              updateFirst (fun e => e.clause_id == req.clause_id)
                (fun e => applyOverride e req) report.evaluations }
      .ok (report',
        { message := "Override applied successfully", clause_id := req.clause_id,
          old_status := old_status, new_status := req.new_status })

/-! ## Spec-side definitions (written from the spec's words, for comparison) -/

/-- Full four-digit matches of `\b(19|20)\d{2}\b` (what the source's
docstring calls "4-digit years"): the same scan as `findYearGroups`, but
returning the whole matched token instead of the capture group. -/
def findYearTokens (text : String) : List String :=
  scanRegex yearAt (fun cs n => String.mk (cs.take n)) text.length none text.data

/-- Spec-side pass criterion for a `year` temporal rule: some 4-digit
19xx/20xx token of the corpus lies within `[min_year, max_year]`. -/
def specYearPass (minYear maxYear : ℚ) (text : String) : Bool :=
  (findYearTokens text).any fun y => decide (minYear ≤ pyInt y) && decide (pyInt y ≤ maxYear)

/-- Spec-side bin membership with a CLOSED top bin, as the claim states it:
bin `i < 4` holds `[i/5, (i+1)/5)` and bin 4 holds `[4/5, 1]`. -/
def specBinClosed (i : Nat) (confidence : ℚ) : Bool :=
  if i < 4 then
    decide ((i : ℚ) / 5 ≤ confidence) && decide (confidence < ((i : ℚ) + 1) / 5)
  else
    decide ((4 : ℚ) / 5 ≤ confidence) && decide (confidence ≤ 1)

/-- Spec-side bin membership with every bin half-open (the amended claim):
bin `i` holds `[i/5, (i+1)/5)`; confidence `1.0` (or anything outside
`[0, 1)`) falls in no bin. -/
def specBinHalfOpen (i : Nat) (confidence : ℚ) : Bool :=
  decide ((i : ℚ) / 5 ≤ confidence) && decide (confidence < ((i : ℚ) + 1) / 5)

/-- Sample-count-weighted mean over non-empty bins of
`|bin_midpoint - empirical_accuracy|`, for a given bin-membership predicate;
written directly from the spec sentence. -/
def specCalibration (memb : Nat → ℚ → Bool)
    (eval_with_truth : List (ClauseEvaluation × GroundTruthLabel)) : ℚ :=
  let inBin : Nat → List (ClauseEvaluation × GroundTruthLabel) := fun i =>
    eval_with_truth.filter fun p => memb i p.1.final_confidence
  let nSamples : Nat → Nat := fun i => (inBin i).length
  let perBin : Nat → ℚ := fun i =>
    if nSamples i = 0 then 0
    else
      let midpoint := (2 * (i : ℚ) + 1) / 10
      let accuracy :=
        ((inBin i).countP (fun p => p.1.final_status == p.2.expected_status) : ℚ) /
          (nSamples i : ℚ)
      |midpoint - accuracy| * (nSamples i : ℚ)
  let total := ((List.range 5).map nSamples).sum
  if 0 < total then (((List.range 5).map perBin).sum) / (total : ℚ) else 0

/-! ## Concrete inputs used by the witnesses and counterexamples -/

/-- A minimal clause with one mandatory numeric rule `r1` (Scenario B). -/
def clauseB : ESGClause :=
  { clause_id := "c1", framework := "TCFD", title := "GHG emissions",
    description := "Disclose scope 1 emissions",
    validation_rules :=
      [{ rule_id := "r1", rule_type := "numeric", description := "numeric evidence",
         parameters := [("min_value", .num 0)], mandatory := true }] }

/-- The reasoning result of Scenario B: `supported`, confidence 0.85. -/
def llmB : LLMEvaluation :=
  { status := ComplianceStatus.supported, confidence := 17/20, explanation := "ok" }

/-- Scenario B's single rule result: triggered, failed, for mandatory `r1`. -/
def rulesB : List RuleValidationResult :=
  [{ rule_id := "r1", passed := false,
     message := "No numeric values found in evidence", triggered := true }]

/-- Rule results with one triggered mandatory failure and two passing rules,
used to push the blended confidence above 0.5. -/
def rulesB3 : List RuleValidationResult :=
  [{ rule_id := "r1", passed := false,
     message := "No numeric values found in evidence", triggered := true },
   { rule_id := "r2", passed := true, message := "Found keywords: [x]", triggered := true },
   { rule_id := "r3", passed := true, message := "Found valid years: [y]", triggered := true }]

/-- A clause evaluation with final confidence exactly 1.0 whose status
matches its ground truth (the calibration counterexample sample). -/
def evalConfOne : ClauseEvaluation :=
  { clause_id := "c1", clause := clauseB, retrieved_evidence := [],
    final_status := ComplianceStatus.supported, final_confidence := 1 }

/-- The matching ground-truth label for `evalConfOne`. -/
def labelConfOne : GroundTruthLabel :=
  { clause_id := "c1", document_id := "doc1",
    expected_status := ComplianceStatus.supported, expected_evidence_pages := [1] }

/-- The year rule with default parameters used for the C4 failing input. -/
def yearRule : ValidationRule :=
  { rule_id := "t1", rule_type := "temporal", description := "report year",
    parameters := [], mandatory := true }

/-- The C4 failing corpus: it contains the in-range year token `2020`. -/
def yearCorpus : String := "Net zero by 2020"

/-- An empty ground-truth store. -/
def emptyStore : GroundTruthStore := fun _ => none

/-- Ground-truth label keyed by document `a_b`, clause `c`. -/
def labelAB_C : GroundTruthLabel :=
  { clause_id := "c", document_id := "a_b",
    expected_status := ComplianceStatus.supported, expected_evidence_pages := [1] }

/-- Ground-truth label keyed by document `a`, clause `b_c`: a distinct
(document, clause) pair whose concatenated key collides with `labelAB_C`. -/
def labelA_BC : GroundTruthLabel :=
  { clause_id := "b_c", document_id := "a",
    expected_status := ComplianceStatus.not_supported, expected_evidence_pages := [2] }

/-- An environment whose retrieval collaborator finds no evidence. -/
def envNoEvidence : PipelineEnv :=
  { search := fun _ _ _ => [], llm_evaluate := fun _ _ => llmB,
    top_k_chunks := 5, current_year := 2026, now := 42 }

/-- A keyword rule whose `keywords` parameter is a number: iterating it
raises a `TypeError` inside `_validate_single_rule`. -/
def badKeywordRule : ValidationRule :=
  { rule_id := "kbad", rule_type := "keyword", description := "broken",
    parameters := [("keywords", .num 5)], mandatory := false }

/-- A well-formed keyword rule used next to `badKeywordRule`. -/
def goodKeywordRule : ValidationRule :=
  { rule_id := "kgood", rule_type := "keyword", description := "net zero",
    parameters := [("keywords", .listV [.pstr "net zero"])], mandatory := false }

/-- One evidence chunk mentioning "net zero". -/
def evidenceNetZero : List RetrievedEvidence :=
  [{ chunk_id := "ch1", text := "Our net zero plan for 2020", page_number := 3,
     similarity_score := 9/10, document_id := "doc1" }]

/-- First stored evaluation of the override-witness report. -/
def evalW1 : ClauseEvaluation :=
  { clause_id := "c1", clause := clauseB, retrieved_evidence := evidenceNetZero,
    llm_evaluation := some llmB, rule_results := rulesB,
    final_status := ComplianceStatus.partial_status, final_confidence := 1/4,
    override_applied := true,
    override_reason := some "Mandatory rule(s) failed: r1", timestamp := 7 }

/-- Second stored evaluation of the override-witness report. -/
def evalW2 : ClauseEvaluation :=
  { clause_id := "c2", clause := clauseB, retrieved_evidence := [],
    final_status := ComplianceStatus.not_supported, final_confidence := 0,
    timestamp := 8 }

/-- A two-evaluation report used by the override witnesses. -/
def reportW : ComplianceReport :=
  { report_id := "rep1", document_id := "doc1", evaluations := [evalW1, evalW2] }

/-- A report store holding only `reportW`. -/
def reportsW : String → Option ComplianceReport :=
  fun rid => if rid = "rep1" then some reportW else none

/-- The override request targeting clause `c2` of `reportW`. -/
def overrideReqW : ComplianceOverrideRequest :=
  { report_id := "rep1", clause_id := "c2",
    new_status := ComplianceStatus.supported, reason := "manual check" }

/-! ## Helper lemmas -/

theorem rulePassRate_nonneg (l : List RuleValidationResult) :
    0 ≤ ((l.countP (·.passed) : ℚ) / (l.length : ℚ)) :=
  div_nonneg (by positivity) (by positivity)

theorem length_pos_of_not_isEmpty {α : Type} {l : List α} (h : ¬ l.isEmpty = true) :
    0 < l.length := by
  cases l with
  | nil => simp at h
  | cons a t => simp

theorem rulePassRate_le_one (l : List RuleValidationResult) (h : ¬ l.isEmpty = true) :
    ((l.countP (·.passed) : ℚ) / (l.length : ℚ)) ≤ 1 := by
  rw [div_le_one (by exact_mod_cast length_pos_of_not_isEmpty h)]
  exact_mod_cast l.countP_le_length _

theorem memIte {c : Bool} {a b : ℚ} (lo hi : ℚ) (ha : lo ≤ a ∧ a ≤ hi)
    (hb : lo ≤ b ∧ b ≤ hi) :
    lo ≤ (if c then a else b) ∧ (if c then a else b) ≤ hi := by
  cases c
  · rw [if_neg (by decide)]; exact hb
  · rw [if_pos rfl]; exact ha

theorem fusionConfBound (b1 b2 b3 : Bool) (c p : ℚ) (h0 : 0 ≤ c) (h1 : c ≤ 1)
    (hp0 : 0 ≤ p) (hp1 : b3 = true → p ≤ 1) :
    0 ≤ (if b3 then ((if b2 then pyMax (3/10) ((if b1 then pyMin c (1/2) else c) - 2/10)
              else (if b1 then pyMin c (1/2) else c)) + p) / 2
          else (if b2 then pyMax (3/10) ((if b1 then pyMin c (1/2) else c) - 2/10)
              else (if b1 then pyMin c (1/2) else c))) ∧
      (if b3 then ((if b2 then pyMax (3/10) ((if b1 then pyMin c (1/2) else c) - 2/10)
              else (if b1 then pyMin c (1/2) else c)) + p) / 2
          else (if b2 then pyMax (3/10) ((if b1 then pyMin c (1/2) else c) - 2/10)
              else (if b1 then pyMin c (1/2) else c))) ≤ 1 := by
  simp only [pyMin_eq, pyMax_eq]
  set x1 := (if b1 then min c (1/2 : ℚ) else c) with hx1
  have hA : 0 ≤ x1 ∧ x1 ≤ 1 := by
    rw [hx1]
    exact memIte 0 1 ⟨le_min h0 (by norm_num), le_trans (min_le_left _ _) h1⟩ ⟨h0, h1⟩
  set x2 := (if b2 then max (3/10 : ℚ) (x1 - 2/10) else x1) with hx2
  have hB : 0 ≤ x2 ∧ x2 ≤ 1 := by
    rw [hx2]
    refine memIte 0 1 ⟨le_trans (by norm_num) (le_max_left _ _),
      max_le (by norm_num) (by linarith [hA.2])⟩ hA
  cases b3
  · rw [if_neg (by decide)]; exact hB
  · rw [if_pos rfl]
    have hp1' := hp1 rfl
    constructor
    · linarith [hB.1]
    · linarith [hB.2]

theorem make_final_decision_confidence_mem (llm : LLMEvaluation)
    (rr : List RuleValidationResult) (clause : ESGClause)
    (h0 : 0 ≤ llm.confidence) (h1 : llm.confidence ≤ 1) :
    0 ≤ (make_final_decision llm rr clause).2.1 ∧
      (make_final_decision llm rr clause).2.1 ≤ 1 :=
  fusionConfBound _ _ _ llm.confidence _ h0 h1 (rulePassRate_nonneg rr)
    (fun h3 => rulePassRate_le_one rr (by simpa using h3))

theorem make_final_decision_override_eq (llm : LLMEvaluation)
    (rr : List RuleValidationResult) (clause : ESGClause)
    (hfm : (failedMandatoryRules rr clause).isEmpty = false)
    (hst : (llm.status == ComplianceStatus.supported ||
        llm.status == ComplianceStatus.partial_status) = true)
    (hall : (rr.filter (·.triggered)).all (·.passed) = false) :
    make_final_decision llm rr clause =
      (ComplianceStatus.partial_status,
        (pyMin llm.confidence (1/2) + (rr.countP (·.passed) : ℚ) / (rr.length : ℚ)) / 2,
        true,
        some ("Mandatory rule(s) failed: " ++
          String.intercalate ", " ((failedMandatoryRules rr clause).map (·.rule_id)))) := by
  have hne : rr.isEmpty = false := by
    cases rr with
    | nil => simp [failedMandatoryRules] at hfm
    | cons a t => rfl
  simp [make_final_decision, hfm, hst, hall, hne]

/-! ## C1 -/

/-- C1: whenever the reasoning confidence lies in `[0, 1]`, the confidence
produced by decision fusion lies in `[0, 1]`; consequently, every
`ClauseEvaluation` produced by a clause evaluation whose LLM oracle yields
confidences in `[0, 1]` stores a final confidence in `[0, 1]` (the
zero-evidence branch stores `0.0`). -/
theorem C1_final_confidence_unit_interval :
    (∀ (llm : LLMEvaluation) (rr : List RuleValidationResult) (clause : ESGClause),
      0 ≤ llm.confidence → llm.confidence ≤ 1 →
      0 ≤ (make_final_decision llm rr clause).2.1 ∧
        (make_final_decision llm rr clause).2.1 ≤ 1) ∧
    (∀ (env : PipelineEnv) (document_id : String) (clause : ESGClause) (top_k : Option Nat),
      (∀ c ev, 0 ≤ (env.llm_evaluate c ev).confidence ∧
          (env.llm_evaluate c ev).confidence ≤ 1) →
      0 ≤ (evaluate_clause env document_id clause top_k).1.final_confidence ∧
        (evaluate_clause env document_id clause top_k).1.final_confidence ≤ 1) := by
  constructor
  · exact fun llm rr clause h0 h1 => make_final_decision_confidence_mem llm rr clause h0 h1
  · intro env document_id clause top_k horacle
    by_cases h :
        (env.search (construct_search_query clause) document_id
          (resolveTopK env top_k)).isEmpty
    · simp [evaluate_clause, h]
    · simp only [evaluate_clause, h, if_neg, Bool.false_eq_true, if_false]
      exact make_final_decision_confidence_mem _ _ _
        (horacle _ _).1 (horacle _ _).2

/-- Witness for C1 at a concrete fusion input. -/
theorem C1_witness :
    0 ≤ (make_final_decision llmB rulesB clauseB).2.1 ∧
      (make_final_decision llmB rulesB clauseB).2.1 ≤ 1 :=
  C1_final_confidence_unit_interval.1 llmB rulesB clauseB
    (by norm_num [llmB]) (by norm_num [llmB])

/-! ## C2 -/

/-- C2 (amended): if some triggered, non-passed rule result corresponds to a
mandatory clause rule and the reasoning status is `supported` or `partial`,
the fused status is `partial` and the fused confidence is at most
`(0.5 + rule_pass_rate) / 2`, hence strictly below `0.75` — but it is NOT
always at most `0.5`, because the final confidence-blending step averages
the capped confidence with the rule pass rate. -/
theorem C2_mandatory_failure_forces_partial (llm : LLMEvaluation)
    (rr : List RuleValidationResult) (clause : ESGClause)
    (hmem : ∃ r ∈ rr, r.triggered = true ∧ r.passed = false ∧
      ∃ vr ∈ clause.validation_rules, vr.rule_id = r.rule_id ∧ vr.mandatory = true)
    (hst : llm.status = ComplianceStatus.supported ∨
      llm.status = ComplianceStatus.partial_status) :
    (make_final_decision llm rr clause).1 = ComplianceStatus.partial_status ∧
      (make_final_decision llm rr clause).2.1 ≤
        (1/2 + (rr.countP (·.passed) : ℚ) / (rr.length : ℚ)) / 2 ∧
      (make_final_decision llm rr clause).2.1 < 3/4 := by
  obtain ⟨r, hrmem, htrig, hpass, vr, hvrmem, hvrid, hvrmand⟩ := hmem
  have hrfm : r ∈ failedMandatoryRules rr clause := by
    refine List.mem_filter.mpr ⟨hrmem, ?_⟩
    simp only [htrig, hpass, Bool.not_false, Bool.and_self, Bool.true_and, Bool.and_eq_true,
      List.any_eq_true]
    exact ⟨vr, List.mem_filter.mpr ⟨hvrmem, by simp [hvrid]⟩, hvrmand⟩
  have hfm : (failedMandatoryRules rr clause).isEmpty = false := by
    cases hfml : failedMandatoryRules rr clause with
    | nil => rw [hfml] at hrfm; cases hrfm
    | cons a t => rfl
  have hstb : (llm.status == ComplianceStatus.supported ||
      llm.status == ComplianceStatus.partial_status) = true := by
    rcases hst with h | h <;> simp [h]
  have hall : (rr.filter (·.triggered)).all (·.passed) = false := by
    rcases Bool.eq_false_or_eq_true ((rr.filter (·.triggered)).all (·.passed)) with h | h
    · exact absurd (List.all_eq_true.mp h r (List.mem_filter.mpr ⟨hrmem, htrig⟩))
        (by simp [hpass])
    · exact h
  rw [make_final_decision_override_eq llm rr clause hfm hstb hall]
  have hlen : 0 < rr.length := List.length_pos.mpr (List.ne_nil_of_mem hrmem)
  have hcount : rr.countP (·.passed) < rr.length := by
    rw [List.countP_eq_length_filter]
    exact List.length_filter_lt_length_iff_exists.mpr ⟨r, hrmem, by simp [hpass]⟩
  have hrate : (rr.countP (·.passed) : ℚ) / (rr.length : ℚ) < 1 := by
    rw [div_lt_one (by exact_mod_cast hlen)]
    exact_mod_cast hcount
  have hmin : pyMin llm.confidence (1/2 : ℚ) ≤ 1/2 := by
    rw [pyMin_eq]; exact min_le_right _ _
  refine ⟨rfl, ?_, ?_⟩ <;> · simp only; linarith

/-- Witness for C2 at the three-rule input. -/
theorem C2_witness :
    (make_final_decision llmB rulesB3 clauseB).1 = ComplianceStatus.partial_status ∧
      (make_final_decision llmB rulesB3 clauseB).2.1 ≤
        (1/2 + (rulesB3.countP (·.passed) : ℚ) / (rulesB3.length : ℚ)) / 2 ∧
      (make_final_decision llmB rulesB3 clauseB).2.1 < 3/4 :=
  C2_mandatory_failure_forces_partial llmB rulesB3 clauseB (by decide) (Or.inl rfl)

/-- C2 counterexample: with one triggered failed mandatory rule and two
passing rules, the hypotheses of the claim hold (`status = supported`,
mandatory failure present) yet the fused confidence is `7/12 > 0.5`. -/
theorem C2_counterexample :
    (∃ r ∈ rulesB3, r.triggered = true ∧ r.passed = false ∧
      ∃ vr ∈ clauseB.validation_rules, vr.rule_id = r.rule_id ∧ vr.mandatory = true) ∧
    llmB.status = ComplianceStatus.supported ∧
    (make_final_decision llmB rulesB3 clauseB).1 = ComplianceStatus.partial_status ∧
    (make_final_decision llmB rulesB3 clauseB).2.1 = 7/12 ∧
    ¬ (make_final_decision llmB rulesB3 clauseB).2.1 ≤ 1/2 := by
  have h := make_final_decision_override_eq llmB rulesB3 clauseB rfl rfl rfl
  refine ⟨by decide, rfl, by rw [h], ?_, ?_⟩
  · rw [h]
    show (pyMin (17/20 : ℚ) (1/2) + ((2 : ℕ) : ℚ) / ((3 : ℕ) : ℚ)) / 2 = 7/12
    rw [pyMin, if_neg (by norm_num)]
    norm_num
  · rw [h]
    show ¬ (pyMin (17/20 : ℚ) (1/2) + ((2 : ℕ) : ℚ) / ((3 : ℕ) : ℚ)) / 2 ≤ 1/2
    rw [pyMin, if_neg (by norm_num)]
    norm_num

/-! ## C3 -/

/-- C3 (amended): for Scenario B's input (one triggered, failed, mandatory
rule; reasoning `supported` at confidence 0.85) the fused result is status
`partial` with `override_applied = true`, but the confidence is exactly
`0.25`, not `0.5`: the cap to `0.5` is then averaged with the rule pass
rate `0/1`. -/
theorem C3_scenario_b_fused_output :
    make_final_decision llmB rulesB clauseB =
      (ComplianceStatus.partial_status, 1/4, true,
        some "Mandatory rule(s) failed: r1") := by
  rw [make_final_decision_override_eq llmB rulesB clauseB rfl rfl rfl]
  have hconf : (pyMin (17/20 : ℚ) (1/2) + ((0 : ℕ) : ℚ) / ((1 : ℕ) : ℚ)) / 2 = 1/4 := by
    rw [pyMin, if_neg (by norm_num)]
    norm_num
  exact congrArg (fun q : ℚ =>
    (ComplianceStatus.partial_status, q, true, some "Mandatory rule(s) failed: r1")) hconf

/-- C3 counterexample: at Scenario B's exact input the fused confidence is
not `0.5`. -/
theorem C3_counterexample :
    (make_final_decision llmB rulesB clauseB).2.1 ≠ 1/2 := by
  rw [make_final_decision_override_eq llmB rulesB clauseB rfl rfl rfl]
  show (pyMin (17/20 : ℚ) (1/2) + ((0 : ℕ) : ℚ) / ((1 : ℕ) : ℚ)) / 2 ≠ 1/2
  rw [pyMin, if_neg (by norm_num)]
  norm_num

/-! ## C4 -/

/-- C4: the corpus "Net zero by 2020" contains the 4-digit token `2020`,
which lies within the default range `[1900, current_year]`, so by the claim
(and the code's own docstring and messages) the year rule must pass; but
`_validate_temporal` passes `re.findall(r'\b(19|20)\d{2}\b', ...)` — whose
capture group makes `findall` return only `"19"`/`"20"` — to `int(...)`,
so no "year" is ever within `[1900, ...]` and the rule fails. -/
theorem C4_year_rule_capture_group_bug :
    specYearPass 1900 2026 yearCorpus = true ∧
    validate_temporal 2026 yearRule yearCorpus =
      .ok { rule_id := "t1", passed := false,
            message := "No years within valid range [1900, 2026]",
            triggered := true } := by
  constructor
  · decide
  · rfl

/-! ## C5 -/

theorem range_five : List.range 5 = [0, 1, 2, 3, 4] := rfl

theorem list_isEmpty_map {α β : Type} (f : α → β) (l : List α) :
    (l.map f).isEmpty = l.isEmpty := by
  cases l <;> rfl

theorem binIndexOf_decide_eq (i : Nat) (hi : i < 5) (c : ℚ) :
    decide (binIndexOf c = some i) = specBinHalfOpen i c := by
  unfold binIndexOf specBinHalfOpen
  rw [range_five]
  rcases lt_or_le c 0 with h | h0
  · have a0 : ¬ (0:ℚ) ≤ c := by linarith
    have a1 : ¬ (1:ℚ)/5 ≤ c := by linarith
    have a2 : ¬ (2:ℚ)/5 ≤ c := by linarith
    have a3 : ¬ (3:ℚ)/5 ≤ c := by linarith
    have a4 : ¬ (4:ℚ)/5 ≤ c := by linarith
    interval_cases i <;>
      norm_num [List.find?, List.getD, calibBins, a0, a1, a2, a3, a4] <;>
      try decide
  rcases lt_or_le c (1/5) with h1 | g1
  · have n1 : ¬ (1:ℚ)/5 ≤ c := by linarith
    have n2 : ¬ (2:ℚ)/5 ≤ c := by linarith
    have n3 : ¬ (3:ℚ)/5 ≤ c := by linarith
    have n4 : ¬ (4:ℚ)/5 ≤ c := by linarith
    interval_cases i <;>
      norm_num [List.find?, List.getD, calibBins, h0, h1, n1, n2, n3, n4]
  rcases lt_or_le c (2/5) with h2 | g2
  · have nl1 : ¬ c < 1/5 := by linarith
    have n2 : ¬ (2:ℚ)/5 ≤ c := by linarith
    have n3 : ¬ (3:ℚ)/5 ≤ c := by linarith
    have n4 : ¬ (4:ℚ)/5 ≤ c := by linarith
    interval_cases i <;>
      norm_num [List.find?, List.getD, calibBins, h0, g1, h2, nl1, n2, n3, n4]
  rcases lt_or_le c (3/5) with h3 | g3
  · have nl1 : ¬ c < 1/5 := by linarith
    have nl2 : ¬ c < 2/5 := by linarith
    have n3 : ¬ (3:ℚ)/5 ≤ c := by linarith
    have n4 : ¬ (4:ℚ)/5 ≤ c := by linarith
    interval_cases i <;>
      norm_num [List.find?, List.getD, calibBins, h0, g1, g2, h3, nl1, nl2, n3, n4]
  rcases lt_or_le c (4/5) with h4 | g4
  · have nl1 : ¬ c < 1/5 := by linarith
    have nl2 : ¬ c < 2/5 := by linarith
    have nl3 : ¬ c < 3/5 := by linarith
    have n4 : ¬ (4:ℚ)/5 ≤ c := by linarith
    interval_cases i <;>
      norm_num [List.find?, List.getD, calibBins, h0, g1, g2, g3, h4, nl1, nl2, nl3, n4]
  rcases lt_or_le c 1 with h5 | g5
  · have nl1 : ¬ c < 1/5 := by linarith
    have nl2 : ¬ c < 2/5 := by linarith
    have nl3 : ¬ c < 3/5 := by linarith
    have nl4 : ¬ c < 4/5 := by linarith
    interval_cases i <;>
      norm_num [List.find?, List.getD, calibBins, h0, g1, g2, g3, g4, h5, nl1, nl2, nl3, nl4]
  · have nl1 : ¬ c < 1/5 := by linarith
    have nl2 : ¬ c < 2/5 := by linarith
    have nl3 : ¬ c < 3/5 := by linarith
    have nl4 : ¬ c < 4/5 := by linarith
    have nl5 : ¬ c < 1 := by linarith
    interval_cases i <;>
      norm_num [List.find?, List.getD, calibBins, h0, g1, g2, g3, g4, nl1, nl2, nl3, nl4, nl5] <;>
      try decide

/-- C5 (amended): the calibration error equals the sample-count-weighted
mean over non-empty bins of `|bin_midpoint - empirical_accuracy|`, where
ALL five bins are half-open — membership in bin `i` is
`i/5 ≤ confidence < (i+1)/5` — so an evaluation whose final confidence is
exactly `1.0` (or outside `[0, 1)`) falls in no bin and is excluded from
both the per-bin statistics and the weighting; if no sample falls in any
bin the error is `0`. -/
theorem C5_calibration_weighted_mean
    (ewt : List (ClauseEvaluation × GroundTruthLabel)) :
    calculate_confidence_calibration ewt = specCalibration specBinHalfOpen ewt := by
  have hbd : ∀ i, i < 5 → binData ewt i =
      (ewt.filter fun p => specBinHalfOpen i p.1.final_confidence).map
        (fun p => p.1.final_status == p.2.expected_status) := by
    intro i hi
    unfold binData
    congr 1
    apply List.filter_congr
    intro p _
    exact binIndexOf_decide_eq i hi p.1.final_confidence
  have hmid : ∀ i : Nat, i < 5 →
      (calibBins.getD i 0 + calibBins.getD (i+1) 0) / 2 = (2*(i:ℚ)+1)/10 := by
    intro i hi
    interval_cases i <;> norm_num [calibBins]
  have hlen : ∀ i, i < 5 → (binData ewt i).length =
      (ewt.filter fun p => specBinHalfOpen i p.1.final_confidence).length := by
    intro i hi
    rw [hbd i hi, List.length_map]
  have hpred : ∀ l : List (ClauseEvaluation × GroundTruthLabel),
      (l.map fun p => p.1.final_status == p.2.expected_status).countP (· == true) =
        l.countP (fun p => p.1.final_status == p.2.expected_status) := by
    intro l
    rw [List.countP_map]
    apply List.countP_congr
    intro p _
    simp [Function.comp]
  have hcontrib : ∀ i, i < 5 →
      (if (binData ewt i).isEmpty then (0:ℚ)
       else |(calibBins.getD i 0 + calibBins.getD (i+1) 0) / 2 -
              ((binData ewt i).countP (· == true) : ℚ) / ((binData ewt i).length : ℚ)| *
            ((binData ewt i).length : ℚ)) =
      (if (ewt.filter fun p => specBinHalfOpen i p.1.final_confidence).length = 0 then (0:ℚ)
       else |(2*(i:ℚ)+1)/10 -
              ((ewt.filter fun p => specBinHalfOpen i p.1.final_confidence).countP
                  (fun p => p.1.final_status == p.2.expected_status) : ℚ) /
                ((ewt.filter fun p => specBinHalfOpen i p.1.final_confidence).length : ℚ)| *
            ((ewt.filter fun p => specBinHalfOpen i p.1.final_confidence).length : ℚ)) := by
    intro i hi
    rw [hbd i hi, list_isEmpty_map, hpred, List.length_map, hmid i hi]
    by_cases hnil : (ewt.filter fun p => specBinHalfOpen i p.1.final_confidence) = []
    · rw [hnil]
      simp
    · rw [if_neg (by simpa [List.isEmpty_iff] using hnil),
        if_neg (by simpa [List.length_eq_zero] using hnil)]
  unfold calculate_confidence_calibration specCalibration
  dsimp only
  rw [show ((List.range 5).map fun i => (binData ewt i).length) =
      ((List.range 5).map fun i =>
        (ewt.filter fun p => specBinHalfOpen i p.1.final_confidence).length) from
    List.map_congr_left fun i hi => hlen i (List.mem_range.mp hi)]
  rw [show ((List.range 5).map fun i =>
      if (binData ewt i).isEmpty then (0:ℚ)
      else |(calibBins.getD i 0 + calibBins.getD (i+1) 0) / 2 -
             ((binData ewt i).countP (· == true) : ℚ) / ((binData ewt i).length : ℚ)| *
           ((binData ewt i).length : ℚ)) =
      ((List.range 5).map fun i =>
        if (ewt.filter fun p => specBinHalfOpen i p.1.final_confidence).length = 0 then (0:ℚ)
        else |(2*(i:ℚ)+1)/10 -
               ((ewt.filter fun p => specBinHalfOpen i p.1.final_confidence).countP
                   (fun p => p.1.final_status == p.2.expected_status) : ℚ) /
                 ((ewt.filter fun p => specBinHalfOpen i p.1.final_confidence).length : ℚ)| *
             ((ewt.filter fun p => specBinHalfOpen i p.1.final_confidence).length : ℚ)) from
    List.map_congr_left fun i hi => hcontrib i (List.mem_range.mp hi)]
  by_cases hTpos : 0 < ((List.range 5).map fun i =>
      (ewt.filter fun p => specBinHalfOpen i p.1.final_confidence).length).sum
  · rw [if_pos hTpos, if_pos hTpos]
  · rw [if_neg hTpos, if_neg hTpos]
    have hT0 : ((List.range 5).map fun i =>
        (ewt.filter fun p => specBinHalfOpen i p.1.final_confidence).length).sum = 0 := by
      omega
    apply List.sum_eq_zero
    intro x hx
    obtain ⟨i, hi, rfl⟩ := List.mem_map.mp hx
    have hz : (ewt.filter fun p => specBinHalfOpen i p.1.final_confidence).length = 0 :=
      (List.sum_eq_zero_iff.mp hT0) _ (List.mem_map.mpr ⟨i, hi, rfl⟩)
    rw [if_pos hz]

/-- C5 counterexample: a single sample with final confidence exactly `1.0`
and a correct status.  The spec formula with a CLOSED top bin puts it in bin
4 (midpoint 0.9, accuracy 1) and yields `0.1`; the code assigns it to no
bin (`0.8 ≤ 1.0 < 1.0` fails), leaving zero samples, and returns `0.0`. -/
theorem C5_counterexample :
    specCalibration specBinClosed [(evalConfOne, labelConfOne)] = 1/10 ∧
    calculate_confidence_calibration [(evalConfOne, labelConfOne)] = 0 ∧
    calculate_confidence_calibration [(evalConfOne, labelConfOne)] ≠
      specCalibration specBinClosed [(evalConfOne, labelConfOne)] := by
  have hconf : evalConfOne.final_confidence = 1 := rfl
  have s0 : specBinClosed 0 (1:ℚ) = false := by norm_num [specBinClosed]
  have s1 : specBinClosed 1 (1:ℚ) = false := by norm_num [specBinClosed]
  have s2 : specBinClosed 2 (1:ℚ) = false := by norm_num [specBinClosed]
  have s3 : specBinClosed 3 (1:ℚ) = false := by norm_num [specBinClosed]
  have s4 : specBinClosed 4 (1:ℚ) = true := by norm_num [specBinClosed]
  have hnone : binIndexOf (1:ℚ) = none := by
    unfold binIndexOf
    rw [range_five]
    norm_num [List.find?, List.getD, calibBins]
  have hspec : specCalibration specBinClosed [(evalConfOne, labelConfOne)] = 1/10 := by
    unfold specCalibration
    dsimp only
    rw [range_five]
    simp only [List.map_cons, List.map_nil, List.sum_cons, List.sum_nil, List.filter,
      hconf, s0, s1, s2, s3, s4, List.length_cons, List.length_nil, List.countP_cons,
      List.countP_nil]
    norm_num [evalConfOne, labelConfOne, abs_sub_comm, abs_of_nonneg]
  have hcode : calculate_confidence_calibration [(evalConfOne, labelConfOne)] = 0 := by
    have hbd : ∀ i : Nat, binData [(evalConfOne, labelConfOne)] i = [] := by
      intro i
      unfold binData
      simp [hconf, hnone]
    unfold calculate_confidence_calibration
    dsimp only
    rw [range_five]
    simp [hbd]
  refine ⟨hspec, hcode, ?_⟩
  rw [hspec, hcode]
  norm_num

/-! ## C6 -/

/-- C6: if retrieval returns no evidence, `evaluate_clause` short-circuits to
a `not_supported` evaluation with confidence `0.0`, an empty rule-result
list and no LLM evaluation, and invokes neither the LLM oracle nor the rule
validator. -/
theorem C6_empty_evidence_short_circuit (env : PipelineEnv) (document_id : String)
    (clause : ESGClause) (top_k : Option Nat)
    (h : env.search (construct_search_query clause) document_id
      (resolveTopK env top_k) = []) :
    evaluate_clause env document_id clause top_k =
      ({ clause_id := clause.clause_id, clause := clause, retrieved_evidence := [],
         llm_evaluation := none, rule_results := [],
         final_status := ComplianceStatus.not_supported, final_confidence := 0,
         override_applied := false, override_reason := none, timestamp := env.now },
       { llm_called := false, rules_called := false }) := by
  simp [evaluate_clause, h]

/-- Witness for C6 with a retrieval collaborator that finds nothing. -/
theorem C6_witness :
    evaluate_clause envNoEvidence "doc1" clauseB none =
      ({ clause_id := "c1", clause := clauseB, retrieved_evidence := [],
         llm_evaluation := none, rule_results := [],
         final_status := ComplianceStatus.not_supported, final_confidence := 0,
         override_applied := false, override_reason := none, timestamp := 42 },
       { llm_called := false, rules_called := false }) :=
  C6_empty_evidence_short_circuit envNoEvidence "doc1" clauseB none rfl

/-! ## C7 -/

theorem validate_numeric_ok_rule_id (rule : ValidationRule) (text : String)
    (r : RuleValidationResult) (h : validate_numeric rule text = .ok r) :
    r.rule_id = rule.rule_id := by
  rw [validate_numeric] at h
  dsimp only at h
  repeat' split at h
  all_goals first | (cases h; rfl) | cases h

theorem validate_temporal_ok_rule_id (cy : ℚ) (rule : ValidationRule) (text : String)
    (r : RuleValidationResult) (h : validate_temporal cy rule text = .ok r) :
    r.rule_id = rule.rule_id := by
  rw [validate_temporal] at h
  dsimp only at h
  repeat' split at h
  all_goals first | (cases h; rfl) | cases h

theorem validate_keyword_ok_rule_id (rule : ValidationRule) (text : String)
    (r : RuleValidationResult) (h : validate_keyword rule text = .ok r) :
    r.rule_id = rule.rule_id := by
  rw [validate_keyword] at h
  dsimp only at h
  repeat' split at h
  all_goals first | (cases h; rfl) | cases h

theorem validate_field_presence_ok_rule_id (rule : ValidationRule) (text : String)
    (r : RuleValidationResult) (h : validate_field_presence rule text = .ok r) :
    r.rule_id = rule.rule_id := by
  rw [validate_field_presence] at h
  dsimp only at h
  repeat' split at h
  all_goals first | (cases h; rfl) | cases h

theorem validate_single_rule_ok_rule_id (cy : ℚ) (rule : ValidationRule)
    (text : String) (r : RuleValidationResult)
    (h : validate_single_rule cy rule text = .ok r) : r.rule_id = rule.rule_id := by
  unfold validate_single_rule at h
  split_ifs at h
  · exact validate_numeric_ok_rule_id rule text r h
  · exact validate_temporal_ok_rule_id cy rule text r h
  · exact validate_keyword_ok_rule_id rule text r h
  · exact validate_field_presence_ok_rule_id rule text r h
  · cases h; rfl

theorem handleRule_rule_id (cy : ℚ) (rule : ValidationRule) (text : String) :
    (handleRule cy rule text).rule_id = rule.rule_id := by
  unfold handleRule
  cases hv : validate_single_rule cy rule text with
  | error e => rfl
  | ok r => exact validate_single_rule_ok_rule_id cy rule text r hv

/-- C7: `validate_rules` yields exactly one result per input rule, in input
order (the i-th result carries the i-th rule's id), and never raises: if
evaluating the i-th rule raises internally, the i-th result is the
untriggered, failed result carrying the error text, and every other rule is
still evaluated independently. -/
theorem C7_validate_rules_total_per_rule (currentYear : ℚ)
    (rules : List ValidationRule) (evidence : List RetrievedEvidence) :
    (validate_rules currentYear rules evidence).length = rules.length ∧
    (∀ i : Nat, ((validate_rules currentYear rules evidence).get? i).map (·.rule_id) =
      (rules.get? i).map (·.rule_id)) ∧
    (∀ (i : Nat) (rule : ValidationRule) (e : String), rules.get? i = some rule →
      validate_single_rule currentYear rule
        (String.intercalate " " (evidence.map (·.text))) = .error e →
      (validate_rules currentYear rules evidence).get? i =
        some { rule_id := rule.rule_id, passed := false,
               message := "Rule validation error: " ++ e, triggered := false }) := by
  refine ⟨by simp [validate_rules], ?_, ?_⟩
  · intro i
    simp only [validate_rules, List.get?_map, Option.map_map]
    cases rules.get? i with
    | none => rfl
    | some rule => simp [handleRule_rule_id]
  · intro i rule e hi he
    have hget : (validate_rules currentYear rules evidence).get? i =
        some (handleRule currentYear rule
          (String.intercalate " " (evidence.map (·.text)))) := by
      simp only [validate_rules, List.get?_map, hi, Option.map_some']
    rw [hget]
    simp [handleRule, he]

/-- Witness for C7: a rule list with a misconfigured keyword rule whose
internal `TypeError` is converted to an untriggered failure. -/
theorem C7_witness :
    (validate_rules 2026 [badKeywordRule, goodKeywordRule] evidenceNetZero).get? 0 =
      some { rule_id := "kbad", passed := false,
             message := "Rule validation error: TypeError: object is not iterable",
             triggered := false } :=
  (C7_validate_rules_total_per_rule 2026 [badKeywordRule, goodKeywordRule]
    evidenceNetZero).2.2 0 badKeywordRule "TypeError: object is not iterable" rfl rfl

/-! ## C8 -/

/-- C8: when no evaluation joins with a stored ground-truth label,
`evaluate_accuracy` returns the zero-metrics sentinel: all rates `0.0` and
calibration error exactly `1.0`. -/
theorem C8_zero_metrics_sentinel (store : GroundTruthStore)
    (evaluations : List ClauseEvaluation) (document_id : String)
    (h : ∀ e ∈ evaluations, store (gtKey document_id e.clause_id) = none) :
    evaluate_accuracy store evaluations document_id =
      { retrieval_recall_at_k := 0, llm_precision := 0, llm_recall := 0,
        llm_f1_score := 0, rule_validation_precision := 0,
        confidence_calibration_error := 1,
        total_clauses_evaluated := evaluations.length } := by
  have hf : (evaluations.filterMap fun e =>
      (store (gtKey document_id e.clause_id)).map fun label => (e, label)) = [] := by
    rw [List.filterMap_eq_nil]
    intro e he
    rw [h e he]
    rfl
  simp [evaluate_accuracy, hf, create_zero_metrics]

/-- Witness for C8 with an empty ground-truth store. -/
theorem C8_witness :
    evaluate_accuracy emptyStore [evalConfOne] "doc1" =
      { retrieval_recall_at_k := 0, llm_precision := 0, llm_recall := 0,
        llm_f1_score := 0, rule_validation_precision := 0,
        confidence_calibration_error := 1, total_clauses_evaluated := 1 } :=
  C8_zero_metrics_sentinel emptyStore [evalConfOne] "doc1" (fun _ _ => rfl)

/-! ## C9 -/

/-- C9 (amended): the store is keyed by the single string
`document_id ++ "_" ++ clause_id`.  Adding a label whose concatenated key
matches an existing entry replaces it (idempotent upsert), and adding a
label with a DIFFERENT concatenated key never replaces another entry; but
distinct `(document_id, clause_id)` pairs whose concatenations coincide
(underscore ambiguity) do alias, so uniqueness holds per concatenated key,
not per pair. -/
theorem C9_ground_truth_upsert :
    (∀ (store : GroundTruthStore) (l1 l2 : GroundTruthLabel),
      gtKey l1.document_id l1.clause_id = gtKey l2.document_id l2.clause_id →
      add_ground_truth (add_ground_truth store [l1]) [l2]
        (gtKey l1.document_id l1.clause_id) = some l2) ∧
    (∀ (store : GroundTruthStore) (l1 l2 : GroundTruthLabel),
      gtKey l1.document_id l1.clause_id ≠ gtKey l2.document_id l2.clause_id →
      add_ground_truth (add_ground_truth store [l1]) [l2]
        (gtKey l1.document_id l1.clause_id) = some l1) := by
  constructor
  · intro store l1 l2 hk
    simp [add_ground_truth, hk]
  · intro store l1 l2 hk
    simp [add_ground_truth, hk]

/-- Witness for C9: re-adding a label under its own key replaces the entry. -/
theorem C9_witness :
    add_ground_truth (add_ground_truth emptyStore [labelAB_C]) [labelAB_C]
      (gtKey labelAB_C.document_id labelAB_C.clause_id) = some labelAB_C :=
  C9_ground_truth_upsert.1 emptyStore labelAB_C labelAB_C rfl

/-- C9 counterexample: the labels for (document `a_b`, clause `c`) and
(document `a`, clause `b_c`) are distinct pairs, yet adding the second
replaces the first's entry because both share the key `"a_b_c"`. -/
theorem C9_counterexample :
    (labelAB_C.document_id, labelAB_C.clause_id) ≠
      (labelA_BC.document_id, labelA_BC.clause_id) ∧
    add_ground_truth (add_ground_truth emptyStore [labelAB_C]) [labelA_BC]
      (gtKey labelAB_C.document_id labelAB_C.clause_id) = some labelA_BC := by
  exact ⟨by decide, rfl⟩

/-! ## C10 -/

theorem updateFirst_length {α : Type} (p : α → Bool) (f : α → α) (l : List α) :
    (updateFirst p f l).length = l.length := by
  induction l with
  | nil => rfl
  | cons a t ih =>
    by_cases h : p a <;> simp [updateFirst, h, ih]

theorem updateFirst_get? {α : Type} (p : α → Bool) (f : α → α) (l : List α) (i : Nat) :
    (updateFirst p f l).get? i = l.get? i ∨
      ∃ e, l.get? i = some e ∧ p e = true ∧ (updateFirst p f l).get? i = some (f e) := by
  induction l generalizing i with
  | nil => left; rfl
  | cons a t ih =>
    by_cases h : p a
    · cases i with
      | zero => right; exact ⟨a, rfl, h, by simp [updateFirst, h]⟩
      | succ n => left; simp [updateFirst, h]
    · cases i with
      | zero => left; simp [updateFirst, h]
      | succ n =>
        rcases ih n with h' | ⟨e, he, hpe, hue⟩
        · left; simpa [updateFirst, h] using h'
        · right; exact ⟨e, by simpa using he, hpe, by simpa [updateFirst, h] using hue⟩

/-- C10: a successful manual override changes only the targeted evaluation's
`final_status`, `override_applied` and `override_reason`; its confidence,
evidence, rule results, LLM evaluation, clause and timestamp are unchanged,
and every other evaluation in the report is unchanged. -/
theorem C10_override_frame (reports : String → Option ComplianceReport)
    (req : ComplianceOverrideRequest) (report' : ComplianceReport)
    (resp : OverrideResponse)
    (hok : override_clause_evaluation reports req = .ok (report', resp))
    (report : ComplianceReport) (hrep : reports req.report_id = some report) :
    report'.report_id = report.report_id ∧
    report'.document_id = report.document_id ∧
    report'.evaluations.length = report.evaluations.length ∧
    (∀ (i : Nat) (e e' : ClauseEvaluation),
      report.evaluations.get? i = some e →
      report'.evaluations.get? i = some e' →
      e' = e ∨
        (e.clause_id = req.clause_id ∧ e'.clause_id = e.clause_id ∧
         e'.clause = e.clause ∧ e'.retrieved_evidence = e.retrieved_evidence ∧
         e'.llm_evaluation = e.llm_evaluation ∧ e'.rule_results = e.rule_results ∧
         e'.final_confidence = e.final_confidence ∧ e'.timestamp = e.timestamp ∧
         e'.final_status = req.new_status ∧ e'.override_applied = true ∧
         e'.override_reason = some ("Manual override: " ++ req.reason))) := by
  unfold override_clause_evaluation at hok
  rw [hrep] at hok
  dsimp only at hok
  cases hfind : report.evaluations.find? (fun e => e.clause_id == req.clause_id) with
  | none => simp only [hfind] at hok; cases hok
  | some evaluation =>
    simp only [hfind] at hok
    simp only [Except.ok.injEq, Prod.mk.injEq] at hok
    obtain ⟨h1, -⟩ := hok
    subst h1
    refine ⟨rfl, rfl, updateFirst_length _ _ _, ?_⟩
    intro i e e' he he'
    rcases updateFirst_get? (fun x => x.clause_id == req.clause_id)
        (fun x => applyOverride x req) report.evaluations i with hsame | ⟨x, hx, hpx, hux⟩
    · left
      rw [hsame, he] at he'
      exact (Option.some.inj he').symm
    · right
      rw [he] at hx
      have hxe : x = e := (Option.some.inj hx).symm
      subst hxe
      rw [hux] at he'
      have he'e : e' = applyOverride x req := Option.some.inj he'.symm
      subst he'e
      exact ⟨eq_of_beq hpx, rfl, rfl, rfl, rfl, rfl, rfl, rfl, rfl, rfl, rfl⟩

/-- The report state after the witness override. -/
def reportW' : ComplianceReport :=
  { reportW with evaluations := [evalW1, applyOverride evalW2 overrideReqW] }

/-- The response of the witness override. -/
def respW : OverrideResponse :=
  { message := "Override applied successfully", clause_id := "c2",
    old_status := ComplianceStatus.not_supported,
    new_status := ComplianceStatus.supported }

/-- Witness for C10: overriding clause `c2` of the stored report rewrites
only the targeted evaluation's three override fields. -/
theorem C10_witness :
    applyOverride evalW2 overrideReqW = evalW2 ∨
      (evalW2.clause_id = overrideReqW.clause_id ∧
       (applyOverride evalW2 overrideReqW).clause_id = evalW2.clause_id ∧
       (applyOverride evalW2 overrideReqW).clause = evalW2.clause ∧
       (applyOverride evalW2 overrideReqW).retrieved_evidence = evalW2.retrieved_evidence ∧
       (applyOverride evalW2 overrideReqW).llm_evaluation = evalW2.llm_evaluation ∧
       (applyOverride evalW2 overrideReqW).rule_results = evalW2.rule_results ∧
       (applyOverride evalW2 overrideReqW).final_confidence = evalW2.final_confidence ∧
       (applyOverride evalW2 overrideReqW).timestamp = evalW2.timestamp ∧
       (applyOverride evalW2 overrideReqW).final_status = overrideReqW.new_status ∧
       (applyOverride evalW2 overrideReqW).override_applied = true ∧
       (applyOverride evalW2 overrideReqW).override_reason =
         some ("Manual override: " ++ overrideReqW.reason)) :=
  (C10_override_frame reportsW overrideReqW reportW' respW rfl reportW rfl).2.2.2
    1 evalW2 (applyOverride evalW2 overrideReqW) rfl rfl

end ESGBuddy
